import Mathlib

/-
  Verification of the agentic tool-calling loop of the pokemon-firebase-functions
  repository (three near-duplicate variants of one Firebase function).

  Shallow embedding conventions:
  * JSON-like values (tool inputs, GraphQL results, error payloads) are the
    inductive `Json` type; `JSON.stringify` is modelled by `stringify`.
  * The external model API (`anthropicClient.messages.create`) is a parameter
    `respond : List MessageParam → Except String ModelResponse`; `Except.error`
    models a rejected promise (thrown exception).
  * The external Data Connect backend (`dataConnect.executeGraphql`) is a
    parameter of type `Backend`; `Except.error` models a rejected promise.
  * The unbounded `while` loop is run on explicit fuel; `LoopResult.running`
    marks fuel exhaustion, i.e. the real loop would still be iterating.
  * Brace characters inside GraphQL template strings are written as the
    escapes \x7b and \x7d; the templates otherwise keep the source's
    operation names, arguments, and field lists.
-/

namespace PF

/-- JSON-like values, as passed between the tool dispatcher and the backend. -/
inductive Json where
  | null : Json
  | bool (b : Bool) : Json
  | num (n : Int) : Json
  | str (s : String) : Json
  | arr (xs : List Json) : Json
  | obj (fields : List (String × Json)) : Json

/-- Escape of a single character, as in `JSON.stringify` for strings. -/
def escChar (c : Char) : String :=
  if c = '"' then "\\\""
  else if c = '\\' then "\\\\"
  else if c = '\n' then "\\n"
  else if c = '\r' then "\\r"
  else if c = '\t' then "\\t"
  else String.singleton c

/-- A double-quoted, escaped JSON string literal. -/
def quoteStr (s : String) : String :=
  "\"" ++ String.join (s.toList.map escChar) ++ "\""

mutual

/-- Model of `JSON.stringify` on `Json` values. -/
def stringify : Json → String
  | Json.null => "null"
  | Json.bool b => cond b "true" "false"
  | Json.num n => toString n
  | Json.str s => quoteStr s
  | Json.arr xs => "[" ++ stringifyElems xs ++ "]"
  | Json.obj fs => "\x7b" ++ stringifyFields fs ++ "\x7d"

/-- Comma-separated serialization of array elements. -/
def stringifyElems : List Json → String
  | [] => ""
  | [x] => stringify x
  | x :: y :: xs => stringify x ++ "," ++ stringifyElems (y :: xs)

/-- Comma-separated serialization of object fields. -/
def stringifyFields : List (String × Json) → String
  | [] => ""
  | [(k, v)] => quoteStr k ++ ":" ++ stringify v
  | (k, v) :: f :: fs => quoteStr k ++ ":" ++ stringify v ++ "," ++ stringifyFields (f :: fs)

end

/-- Model of JavaScript `String.prototype.trim`: drop leading and trailing
whitespace characters. -/
def jsTrim (s : String) : String :=
  String.mk (((s.toList.dropWhile Char.isWhitespace).reverse.dropWhile
    Char.isWhitespace).reverse)

/-- Role of a conversation turn (`Anthropic.MessageParam.role`). -/
inductive Role where
  | user : Role
  | assistant : Role
deriving DecidableEq

/-- A content block of a model response (`response.content` entries).
`other` stands for any block type that is neither `text` nor `tool_use`;
the source code only ever inspects those two type tags. -/
inductive ContentBlock where
  | text (t : String) : ContentBlock
  | toolUse (id : String) (nm : String) (input : List (String × Json)) : ContentBlock
  | other (tag : String) : ContentBlock

/-- An `Anthropic.ToolResultBlockParam` as built by the loop:
`{type: "tool_result", tool_use_id, content}`. -/
structure ToolResultBlockParam where
  tool_use_id : String
  content : String

/-- The content payload of one turn: the initial plain-string user message,
an assistant turn carrying response content blocks, or a user turn carrying
tool results. -/
inductive MessageContent where
  | text (s : String) : MessageContent
  | blocks (bs : List ContentBlock) : MessageContent
  | toolResults (rs : List ToolResultBlockParam) : MessageContent

/-- An `Anthropic.MessageParam`: a role plus content. -/
structure MessageParam where
  role : Role
  content : MessageContent

/-- The structured final response of one model call: a stop reason (the code
compares it with the string "tool_use") and content blocks. -/
structure ModelResponse where
  stop_reason : String
  content : List ContentBlock

/-- GraphQL variables: each key maps to a value or to `undefined` (when the
source reads an absent field of the tool input, e.g. `toolInput.id`). -/
abbrev Vars := List (String × Option Json)

/-- The external Data Connect backend: takes a GraphQL query string and
variables, returns data or rejects. One invocation is one round trip. -/
abbrev Backend := String → Vars → Except String Json

/-- The external model API: takes the conversation so far, returns the final
structured response or rejects. (System prompt, tool catalog and model name
are fixed in the source and therefore not parameters here.) -/
abbrev Respond := List MessageParam → Except String ModelResponse

/-- Embedding of `queryDataConnect`: one `executeGraphql` round trip whose
rejection propagates to the caller. -/
def queryDataConnect (backend : Backend) (query : String) (vars : Vars) :
    Except String Json :=
  backend query vars

/-- The tool-use blocks of a content list, in listed order, as
(id, name, input) triples — embedding of
`response.content.filter(block => block.type === "tool_use")`. -/
def toolUsesOf (bs : List ContentBlock) : List (String × String × List (String × Json)) :=
  bs.filterMap (fun b =>
    match b with
    | ContentBlock.toolUse i n inp => some (i, n, inp)
    | _ => none)

/-- Outcome of one run of the agentic loop on given fuel. -/
inductive LoopResult where
  | done (finalText : String) : LoopResult
  | threw (e : String) : LoopResult
  | running : LoopResult
deriving DecidableEq

namespace IndexTs

/- Embedding of src/functions/src/index.ts (buffered variant). -/

/-- The `ListMatches` GraphQL template of `handleToolCall` (braces escaped). -/
def listMatchesQuery : String :=
  "query ListMatches \x7b matches(orderBy: \x7b createdAt: DESC \x7d) " ++
  "\x7b id name goals throwIns createdAt \x7d \x7d"

/-- The `GetMatch` GraphQL template of `handleToolCall` (braces escaped). -/
def getMatchQuery : String :=
  "query GetMatch($id: UUID!) \x7b match(id: $id) " ++
  "\x7b id name goals throwIns players_on_match \x7b id name pokemonType \x7d \x7d \x7d"

/-- The tool names of the switch in `handleToolCall` / the tool catalog. -/
def supportedToolNames : List String := ["list_matches", "get_match"]

/-- Embedding of `handleToolCall`: switch on the tool name; the two known
tools run their fixed query (rejections propagate), any other name resolves
normally with the `Unknown tool` error payload. -/
def handleToolCall (backend : Backend) (toolName : String)
    (toolInput : List (String × Json)) : Except String Json :=
  if toolName = "list_matches" then
    queryDataConnect backend listMatchesQuery []
  else if toolName = "get_match" then
    queryDataConnect backend getMatchQuery [("id", List.lookup "id" toolInput)]
  else
    Except.ok (Json.obj [("error", Json.str ("Unknown tool: " ++ toolName))])

/-- Embedding of the `for (const toolUse of toolUseBlocks)` loop: execute the
batch sequentially, building one `tool_result` block per request with the
`JSON.stringify`-ed result; the first rejection aborts the batch and
propagates. -/
def runTools (backend : Backend) :
    List (String × String × List (String × Json)) →
    Except String (List ToolResultBlockParam)
  | [] => Except.ok []
  | (i, n, inp) :: rest =>
    match handleToolCall backend n inp with
    | Except.error e => Except.error e
    | Except.ok result =>
      match runTools backend rest with
      | Except.error e => Except.error e
      | Except.ok rs => Except.ok (ToolResultBlockParam.mk i (stringify result) :: rs)

/-- Embedding of the final-answer extraction:
`response.content.find(block => block.type === "text")` followed by
`textBlock?.text || "No response generated."` (note the JS `||`: an empty
text string also falls back to the fixed message). -/
def extractText (r : ModelResponse) : String :=
  match r.content.find? (fun b =>
    match b with
    | ContentBlock.text _ => true
    | _ => false) with
  | some (ContentBlock.text t) => if t = "" then "No response generated." else t
  | _ => "No response generated."

/-- The first text block's text of a response, if any. -/
def firstText (r : ModelResponse) : Option String :=
  match r.content.find? (fun b =>
    match b with
    | ContentBlock.text _ => true
    | _ => false) with
  | some (ContentBlock.text t) => some t
  | _ => none

/-- Embedding of the `while (continueLoop)` body of `callClaudeWithTools`,
on explicit fuel. Each iteration calls the model; on `tool_use` it runs the
batch, appends the assistant turn as received plus one user turn with all
tool results, and recurses; otherwise it returns the extracted text.
A rejection of the model call or of a tool's backend query is `threw`. -/
def loopAux (backend : Backend) (respond : Respond) :
    Nat → List MessageParam → LoopResult
  | 0, _ => LoopResult.running
  | fuel + 1, messages =>
    match respond messages with
    | Except.error e => LoopResult.threw e
    | Except.ok response =>
      if response.stop_reason = "tool_use" then
        match runTools backend (toolUsesOf response.content) with
        | Except.error e => LoopResult.threw e
        | Except.ok toolResults =>
          loopAux backend respond fuel
            (messages ++
              [MessageParam.mk Role.assistant (MessageContent.blocks response.content),
               MessageParam.mk Role.user (MessageContent.toolResults toolResults)])
      else
        LoopResult.done (extractText response)

/-- The initial conversation: exactly one user turn holding the input text. -/
def initMsgs (userMessage : String) : List MessageParam :=
  [MessageParam.mk Role.user (MessageContent.text userMessage)]

/-- Embedding of `callClaudeWithTools` (buffered): run the loop from the
seeded conversation. -/
def callClaudeWithTools (backend : Backend) (respond : Respond) (fuel : Nat)
    (userMessage : String) : LoopResult :=
  loopAux backend respond fuel (initMsgs userMessage)

/-- The successive values of `messages` at the start of each executed loop
iteration (ghost instrumentation of `loopAux`; same control flow). -/
def loopStates (backend : Backend) (respond : Respond) :
    Nat → List MessageParam → List (List MessageParam)
  | 0, messages => [messages]
  | fuel + 1, messages =>
    match respond messages with
    | Except.error _ => [messages]
    | Except.ok response =>
      if response.stop_reason = "tool_use" then
        match runTools backend (toolUsesOf response.content) with
        | Except.error _ => [messages]
        | Except.ok toolResults =>
          messages :: loopStates backend respond fuel
            (messages ++
              [MessageParam.mk Role.assistant (MessageContent.blocks response.content),
               MessageParam.mk Role.user (MessageContent.toolResults toolResults)])
      else
        [messages]

/-- HTTP response of the buffered request handler: status and plain-text
body. -/
structure Res where
  status : Nat
  body : String
deriving DecidableEq

/-- Embedding of the `calmMeDown` handler (buffered variant), parameterized
over the Controller (the partially applied `callClaudeWithTools`). Returns
the response written and the number of Controller invocations.
`String(req.body?.userInputText || "")` is the `Option.getD` extraction. -/
def calmMeDown (controller : String → Except String String) (field : Option String) :
    Res × Nat :=
  let userInputText := field.getD ""
  if jsTrim userInputText = "" then
    (Res.mk 200 "Please enter a message.", 0)
  else
    match controller userInputText with
    | Except.ok responseText => (Res.mk 200 responseText, 1)
    | Except.error e => (Res.mk 500 ("Error: " ++ e), 1)

end IndexTs

namespace Part001

/- Embedding of the seven-tool `handleToolCall` of src/unnamed/part_001. -/

/-- The `GetAllMatchData` GraphQL template (braces escaped). -/
def getAllMatchDataQuery : String :=
  "query GetAllMatchData \x7b matches(orderBy: \x7b date: DESC \x7d) \x7b " ++
  "id date kickoffTime opposition venueName venueCity " ++
  "isHome formation goalsScored goalsConceded result " ++
  "halfTimeGoalsScored halfTimeGoalsConceded notes " ++
  "matchAppearances_on_match \x7b isStarter minutesPlayed " ++
  "player \x7b id name jerseyNumber position pokemonType \x7d \x7d " ++
  "matchEvents_on_match(orderBy: \x7b minute: ASC \x7d) \x7b " ++
  "id eventType minute note player \x7b id name \x7d " ++
  "secondaryPlayer \x7b id name \x7d \x7d \x7d \x7d"

/-- The `ListMatches` GraphQL template (braces escaped). -/
def listMatchesQuery : String :=
  "query ListMatches \x7b matches(orderBy: \x7b date: DESC \x7d) \x7b " ++
  "id date kickoffTime opposition venueName venueCity " ++
  "isHome formation goalsScored goalsConceded result " ++
  "halfTimeGoalsScored halfTimeGoalsConceded notes \x7d \x7d"

/-- The `GetMatch` GraphQL template (braces escaped). -/
def getMatchQuery : String :=
  "query GetMatch($id: UUID!) \x7b match(id: $id) \x7b " ++
  "id date kickoffTime opposition venueName venueCity " ++
  "isHome formation goalsScored goalsConceded result " ++
  "halfTimeGoalsScored halfTimeGoalsConceded notes " ++
  "matchAppearances_on_match \x7b isStarter minutesPlayed " ++
  "player \x7b id name jerseyNumber position pokemonType \x7d \x7d " ++
  "matchEvents_on_match(orderBy: \x7b minute: ASC \x7d) \x7b " ++
  "id eventType minute note player \x7b id name \x7d " ++
  "secondaryPlayer \x7b id name \x7d \x7d \x7d \x7d"

/-- The `ListPlayers` GraphQL template (braces escaped). -/
def listPlayersQuery : String :=
  "query ListPlayers \x7b players(orderBy: \x7b jerseyNumber: ASC \x7d) \x7b " ++
  "id name jerseyNumber position pokemonType \x7d \x7d"

/-- The `GetPlayer` GraphQL template (braces escaped). -/
def getPlayerQuery : String :=
  "query GetPlayer($id: UUID!) \x7b player(id: $id) \x7b " ++
  "id name jerseyNumber position pokemonType " ++
  "matchAppearances_on_player \x7b isStarter minutesPlayed " ++
  "match \x7b id date opposition result \x7d \x7d " ++
  "matchEvents_on_player \x7b id eventType minute note " ++
  "match \x7b id date opposition \x7d \x7d \x7d \x7d"

/-- The `GetEventsByType` GraphQL template (braces escaped). -/
def getEventsByTypeQuery : String :=
  "query GetEventsByType($eventType: EventType!) \x7b matchEvents(" ++
  "where: \x7b eventType: \x7b eq: $eventType \x7d \x7d, " ++
  "orderBy: \x7b minute: ASC \x7d) \x7b id minute note " ++
  "match \x7b id date opposition \x7d player \x7b id name \x7d " ++
  "secondaryPlayer \x7b id name \x7d \x7d \x7d"

/-- The `GetPlayerEvents` GraphQL template (braces escaped). -/
def getPlayerEventsQuery : String :=
  "query GetPlayerEvents($playerId: UUID!) \x7b matchEvents(" ++
  "where: \x7b player: \x7b id: \x7b eq: $playerId \x7d \x7d \x7d, " ++
  "orderBy: \x7b minute: ASC \x7d) \x7b id eventType minute note " ++
  "match \x7b id date opposition \x7d " ++
  "secondaryPlayer \x7b id name \x7d \x7d \x7d"

/-- The tool names of the switch in `handleToolCall` / the tool catalog. -/
def supportedToolNames : List String :=
  ["get_all_match_data", "list_matches", "get_match", "list_players",
   "get_player", "get_events_by_type", "get_player_events"]

/-- Embedding of `handleToolCall`: switch on the tool name, each case running
its fixed query with the variables read off the tool input; the default case
resolves with the `Unknown tool` error payload. -/
def handleToolCall (backend : Backend) (toolName : String)
    (toolInput : List (String × Json)) : Except String Json :=
  if toolName = "get_all_match_data" then
    queryDataConnect backend getAllMatchDataQuery []
  else if toolName = "list_matches" then
    queryDataConnect backend listMatchesQuery []
  else if toolName = "get_match" then
    queryDataConnect backend getMatchQuery [("id", List.lookup "id" toolInput)]
  else if toolName = "list_players" then
    queryDataConnect backend listPlayersQuery []
  else if toolName = "get_player" then
    queryDataConnect backend getPlayerQuery [("id", List.lookup "id" toolInput)]
  else if toolName = "get_events_by_type" then
    queryDataConnect backend getEventsByTypeQuery
      [("eventType", List.lookup "eventType" toolInput)]
  else if toolName = "get_player_events" then
    queryDataConnect backend getPlayerEventsQuery
      [("playerId", List.lookup "playerId" toolInput)]
  else
    Except.ok (Json.obj [("error", Json.str ("Unknown tool: " ++ toolName))])

/-- The backend request (query template, variables) a supported tool would
execute, read off the same switch as `handleToolCall`; `none` for the
unknown-tool default branch, which performs no backend request. -/
def toolRequest (toolName : String) (toolInput : List (String × Json)) :
    Option (String × Vars) :=
  if toolName = "get_all_match_data" then
    some (getAllMatchDataQuery, [])
  else if toolName = "list_matches" then
    some (listMatchesQuery, [])
  else if toolName = "get_match" then
    some (getMatchQuery, [("id", List.lookup "id" toolInput)])
  else if toolName = "list_players" then
    some (listPlayersQuery, [])
  else if toolName = "get_player" then
    some (getPlayerQuery, [("id", List.lookup "id" toolInput)])
  else if toolName = "get_events_by_type" then
    some (getEventsByTypeQuery, [("eventType", List.lookup "eventType" toolInput)])
  else if toolName = "get_player_events" then
    some (getPlayerEventsQuery, [("playerId", List.lookup "playerId" toolInput)])
  else
    none

/-- The key of the single documented argument field each tool reads from its
input (`id`, `eventType` or `playerId`); `none` for the no-argument tools. -/
def toolArgKey (toolName : String) : Option String :=
  if toolName = "get_match" then some "id"
  else if toolName = "get_player" then some "id"
  else if toolName = "get_events_by_type" then some "eventType"
  else if toolName = "get_player_events" then some "playerId"
  else none

end Part001

namespace Part000

/- Embedding of the streaming variant (src/unnamed/part_000; the top half of
src/unnamed/part_001 has the same controller and handler code). -/

/-- The streaming model call: the text deltas emitted through the `text`
event, in emission order, and the final structured message that
`stream.finalMessage()` resolves to after all deltas. -/
structure ModelStream where
  deltas : List String
  final : ModelResponse

/-- The SDK contract for one streamed turn: the emitted text deltas
concatenate to the final message's text content. -/
def streamContract (s : ModelStream) : Prop :=
  String.join s.deltas = String.join (s.final.content.filterMap (fun b =>
    match b with
    | ContentBlock.text t => some t
    | _ => none))

/-- The final textual answer of a turn: the concatenated text blocks of the
final structured message. -/
def finalTurnText (r : ModelResponse) : String :=
  String.join (r.content.filterMap (fun b =>
    match b with
    | ContentBlock.text t => some t
    | _ => none))

/-- Observable events of one streamed turn, in temporal order: one `write`
per `text` event (relayed by `res.write(delta)`), then the completion signal
(`stream.finalMessage()` resolving). -/
inductive StreamEvent where
  | write (s : String) : StreamEvent
  | completed : StreamEvent
deriving DecidableEq

/-- The event trace of one streamed turn. -/
def turnEvents (s : ModelStream) : List StreamEvent :=
  s.deltas.map StreamEvent.write ++ [StreamEvent.completed]

/-- The text fragments written in an event trace, in order. -/
def writesOf (evs : List StreamEvent) : List String :=
  evs.filterMap (fun ev =>
    match ev with
    | StreamEvent.write s => some s
    | StreamEvent.completed => none)

/-- The streaming HTTP response: status, headers set so far, whether headers
have been flushed to the client, the chunks written, and whether the
response has ended. -/
structure SRes where
  status : Nat
  headerFields : List (String × String)
  headersSent : Bool
  chunks : List String
  ended : Bool
deriving DecidableEq

/-- A fresh Express response object. -/
def initRes : SRes := SRes.mk 200 [] false [] false

/-- Model of `res.set(...)`: stores header fields; nothing is sent yet. -/
def setHeaders (r : SRes) (hs : List (String × String)) : SRes :=
  SRes.mk r.status (r.headerFields ++ hs) r.headersSent r.chunks r.ended

/-- Model of `res.status(n)`. -/
def setStatus (r : SRes) (n : Nat) : SRes :=
  SRes.mk n r.headerFields r.headersSent r.chunks r.ended

/-- Model of `res.write(chunk)`: commits the headers and appends the chunk. -/
def writeChunk (r : SRes) (s : String) : SRes :=
  SRes.mk r.status r.headerFields true (r.chunks ++ [s]) r.ended

/-- Model of `res.send(body)`: commits the headers, writes the body, ends. -/
def sendText (r : SRes) (s : String) : SRes :=
  SRes.mk r.status r.headerFields true (r.chunks ++ [s]) true

/-- Model of `res.end()`: commits the headers and ends the response. -/
def endStream (r : SRes) : SRes :=
  SRes.mk r.status r.headerFields true r.chunks true

/-- The headers the streaming handler sets before invoking the Controller. -/
def streamingHeaders : List (String × String) :=
  [("Content-Type", "text/plain; charset=utf-8"),
   ("Transfer-Encoding", "chunked"),
   ("Cache-Control", "no-cache"),
   ("X-Content-Type-Options", "nosniff")]

/-- One turn's relay of `stream.on("text", delta => res.write(delta))`:
every delta is written to the response in arrival order, before
`finalMessage` resolves. -/
def relayTurn (res : SRes) (s : ModelStream) : SRes :=
  s.deltas.foldl writeChunk res

/-- Embedding of the streaming `calmMeDown` handler, parameterized over the
Controller (the partially applied streaming `callClaudeWithTools`). The
Controller receives the response object after the streaming headers are set
and either returns it (having written its chunks) or rejects, carrying the
response state at the moment of the throw. Returns the final response state
and the number of Controller invocations. -/
def calmMeDown (controller : SRes → Except (String × SRes) SRes)
    (field : Option String) : SRes × Nat :=
  let userInputText := field.getD ""
  if jsTrim userInputText = "" then
    (sendText (setHeaders initRes [("Content-Type", "text/plain")])
      "Please enter a message.", 0)
  else
    match controller (setHeaders initRes streamingHeaders) with
    | Except.ok r => (endStream r, 1)
    | Except.error (e, r) =>
      if r.headersSent then
        (endStream r, 1)
      else
        (sendText (setHeaders (setStatus r 500) [("Content-Type", "text/plain")])
          ("Error: " ++ e), 1)

end Part000

/-- The tool results `rs` answer exactly the tool-use requests of the
assistant content `bs`: same invocation identifiers, in the same listed
order. -/
def resultsMatch (bs : List ContentBlock) (rs : List ToolResultBlockParam) : Prop :=
  rs.map (fun x => x.tool_use_id) = (toolUsesOf bs).map (fun x => x.1)

/-- Well-formed conversations of the agentic loop: the seed conversation of
one user text turn, extended only by appending an assistant turn (the model
response content, as received) immediately followed by a single user turn
bundling that batch's tool results. -/
inductive GoodConvo : List MessageParam → Prop where
  | seed (u : String) :
      GoodConvo [MessageParam.mk Role.user (MessageContent.text u)]
  | extend (s : List MessageParam) (bs : List ContentBlock)
      (rs : List ToolResultBlockParam) :
      GoodConvo s → resultsMatch bs rs →
      GoodConvo (s ++
        [MessageParam.mk Role.assistant (MessageContent.blocks bs),
         MessageParam.mk Role.user (MessageContent.toolResults rs)])

end PF

open PF

/- ------------------------------------------------------------------ -/
/- Helper lemmas                                                       -/
/- ------------------------------------------------------------------ -/

/-- Refinement: `handleToolCall` of the part_001 variant follows `toolRequest`: a
supported tool executes exactly the backend request `toolRequest` names, and
the default branch returns the error payload without touching the backend. -/
theorem part001_handleToolCall_eq_toolRequest (backend : Backend) (toolName : String)
    (toolInput : List (String × Json)) :
    Part001.handleToolCall backend toolName toolInput =
      match Part001.toolRequest toolName toolInput with
      | some (q, v) => queryDataConnect backend q v
      | none => Except.ok (Json.obj [("error", Json.str ("Unknown tool: " ++ toolName))]) := by
  unfold Part001.handleToolCall Part001.toolRequest
  repeat' split
  all_goals simp_all [queryDataConnect]

/-- A successful batch run produces one `tool_result` per request, keyed by
the request's invocation id, in the same listed order. -/
theorem runTools_ok_ids (backend : Backend)
    (blocks : List (String × String × List (String × Json)))
    (results : List ToolResultBlockParam)
    (h : IndexTs.runTools backend blocks = Except.ok results) :
    results.map (fun x => x.tool_use_id) = blocks.map (fun x => x.1) := by
  induction blocks generalizing results with
  | nil =>
    simp only [IndexTs.runTools] at h
    cases h
    rfl
  | cons b rest ih =>
    obtain ⟨i, n, inp⟩ := b
    simp only [IndexTs.runTools] at h
    cases hh : IndexTs.handleToolCall backend n inp with
    | error e => rw [hh] at h; cases h
    | ok result =>
      rw [hh] at h
      cases hr : IndexTs.runTools backend rest with
      | error e => rw [hr] at h; cases h
      | ok rs =>
        rw [hr] at h
        cases h
        simp [ih rs hr]

/-- If the backend always resolves, `handleToolCall` always resolves. -/
theorem handleToolCall_isOk (backend : Backend)
    (htotal : ∀ q v, ∃ j, backend q v = Except.ok j)
    (n : String) (i : List (String × Json)) :
    ∃ j, IndexTs.handleToolCall backend n i = Except.ok j := by
  unfold IndexTs.handleToolCall queryDataConnect
  repeat' split
  · exact htotal _ _
  · exact htotal _ _
  · exact ⟨_, rfl⟩

/-- If the backend always resolves, every batch run resolves. -/
theorem runTools_isOk (backend : Backend)
    (htotal : ∀ q v, ∃ j, backend q v = Except.ok j) :
    ∀ blocks, ∃ rs, IndexTs.runTools backend blocks = Except.ok rs := by
  intro blocks
  induction blocks with
  | nil => exact ⟨[], rfl⟩
  | cons b rest ih =>
    obtain ⟨i, n, inp⟩ := b
    obtain ⟨j, hj⟩ := handleToolCall_isOk backend htotal n inp
    obtain ⟨rs, hrs⟩ := ih
    refine ⟨ToolResultBlockParam.mk i (stringify j) :: rs, ?_⟩
    simp only [IndexTs.runTools]
    rw [hj, hrs]

/-- One unfolding of the loop on a tool-use response with a successful
batch: the assistant turn and one user turn of results are appended. -/
theorem loopAux_tool_use_step (backend : Backend) (respond : Respond)
    (fuel : Nat) (msgs : List MessageParam) (r : ModelResponse)
    (results : List ToolResultBlockParam)
    (hresp : respond msgs = Except.ok r) (hstop : r.stop_reason = "tool_use")
    (hrun : IndexTs.runTools backend (toolUsesOf r.content) = Except.ok results) :
    IndexTs.loopAux backend respond (fuel + 1) msgs =
      IndexTs.loopAux backend respond fuel
        (msgs ++
          [MessageParam.mk Role.assistant (MessageContent.blocks r.content),
           MessageParam.mk Role.user (MessageContent.toolResults results)]) := by
  conv_lhs => unfold IndexTs.loopAux
  rw [hresp]
  simp [hstop, hrun]

/-- One unfolding of the loop on a non-tool-use response: the loop is done
and returns the extracted text. -/
theorem loopAux_done_step (backend : Backend) (respond : Respond)
    (fuel : Nat) (msgs : List MessageParam) (r : ModelResponse)
    (hresp : respond msgs = Except.ok r) (hstop : r.stop_reason ≠ "tool_use") :
    IndexTs.loopAux backend respond (fuel + 1) msgs =
      LoopResult.done (IndexTs.extractText r) := by
  unfold IndexTs.loopAux
  rw [hresp]
  simp [hstop]

/-- One unfolding of the loop when the batch rejects: the loop throws. -/
theorem loopAux_threw_step (backend : Backend) (respond : Respond)
    (fuel : Nat) (msgs : List MessageParam) (r : ModelResponse) (e : String)
    (hresp : respond msgs = Except.ok r) (hstop : r.stop_reason = "tool_use")
    (hrun : IndexTs.runTools backend (toolUsesOf r.content) = Except.error e) :
    IndexTs.loopAux backend respond (fuel + 1) msgs = LoopResult.threw e := by
  unfold IndexTs.loopAux
  rw [hresp]
  simp [hstop, hrun]

/-- If every model response requests tool use and the backend always
resolves, the loop never finishes on any fuel: the real `while` loop would
iterate forever. -/
theorem loopAux_always_running (backend : Backend) (respond : Respond)
    (htu : ∀ msgs, ∃ r, respond msgs = Except.ok r ∧ r.stop_reason = "tool_use")
    (htotal : ∀ q v, ∃ j, backend q v = Except.ok j) :
    ∀ (fuel : Nat) (msgs : List MessageParam),
      IndexTs.loopAux backend respond fuel msgs = LoopResult.running := by
  intro fuel
  induction fuel with
  | zero => intro msgs; rfl
  | succ n ih =>
    intro msgs
    obtain ⟨r, hr, hs⟩ := htu msgs
    obtain ⟨rs, hrs⟩ := runTools_isOk backend htotal (toolUsesOf r.content)
    rw [loopAux_tool_use_step backend respond n msgs r rs hr hs hrs]
    exact ih _

/-- The first recorded loop state is the starting conversation. -/
theorem loopStates_head (backend : Backend) (respond : Respond)
    (fuel : Nat) (msgs : List MessageParam) :
    (IndexTs.loopStates backend respond fuel msgs).head? = some msgs := by
  cases fuel with
  | zero => rfl
  | succ n =>
    unfold IndexTs.loopStates
    repeat' split
    all_goals rfl

/-- The instrumented loop on a tool-use response with a successful batch
records the current conversation and continues from the extended one. -/
theorem loopStates_tool_use_step (backend : Backend) (respond : Respond)
    (fuel : Nat) (msgs : List MessageParam) (r : ModelResponse)
    (results : List ToolResultBlockParam)
    (hresp : respond msgs = Except.ok r) (hstop : r.stop_reason = "tool_use")
    (hrun : IndexTs.runTools backend (toolUsesOf r.content) = Except.ok results) :
    IndexTs.loopStates backend respond (fuel + 1) msgs =
      msgs :: IndexTs.loopStates backend respond fuel
        (msgs ++
          [MessageParam.mk Role.assistant (MessageContent.blocks r.content),
           MessageParam.mk Role.user (MessageContent.toolResults results)]) := by
  conv_lhs => unfold IndexTs.loopStates
  rw [hresp]
  simp [hstop, hrun]

/-- In every other case the instrumented loop records only the current
conversation: model-call rejection, batch rejection, or a final answer. -/
theorem loopStates_stop (backend : Backend) (respond : Respond)
    (fuel : Nat) (msgs : List MessageParam)
    (h : (∃ e, respond msgs = Except.error e) ∨
      (∃ r, respond msgs = Except.ok r ∧ r.stop_reason ≠ "tool_use") ∨
      (∃ r e, respond msgs = Except.ok r ∧ r.stop_reason = "tool_use" ∧
        IndexTs.runTools backend (toolUsesOf r.content) = Except.error e)) :
    IndexTs.loopStates backend respond (fuel + 1) msgs = [msgs] := by
  conv_lhs => unfold IndexTs.loopStates
  rcases h with ⟨e, he⟩ | ⟨r, hr, hstop⟩ | ⟨r, e, hr, hstop, hrun⟩
  · rw [he]
  · rw [hr]
    simp [hstop]
  · rw [hr]
    simp [hstop, hrun]

/-- Invariant of the instrumented loop: starting from a well-formed
conversation, every recorded state extends the start by appended turns and
is itself well-formed, and consecutive recorded states differ only by
appending. -/
theorem loopStates_invariant (backend : Backend) (respond : Respond) :
    ∀ (fuel : Nat) (msgs : List MessageParam), GoodConvo msgs →
      (∀ s ∈ IndexTs.loopStates backend respond fuel msgs,
        (∃ t, s = msgs ++ t) ∧ GoodConvo s) ∧
      List.Chain' (fun a b => ∃ t, b = a ++ t)
        (IndexTs.loopStates backend respond fuel msgs) := by
  intro fuel
  induction fuel with
  | zero =>
    intro msgs hgood
    have hz : IndexTs.loopStates backend respond 0 msgs = [msgs] := rfl
    rw [hz]
    refine ⟨?_, List.chain'_singleton _⟩
    intro s hs
    simp only [List.mem_singleton] at hs
    exact ⟨⟨[], by simp [hs]⟩, hs ▸ hgood⟩
  | succ n ih =>
    intro msgs hgood
    by_cases hcont : ∃ r results, respond msgs = Except.ok r ∧
        r.stop_reason = "tool_use" ∧
        IndexTs.runTools backend (toolUsesOf r.content) = Except.ok results
    · obtain ⟨r, results, hr, hstop, hrun⟩ := hcont
      rw [loopStates_tool_use_step backend respond n msgs r results hr hstop hrun]
      have hmatch : resultsMatch r.content results :=
        runTools_ok_ids backend (toolUsesOf r.content) results hrun
      have hgood' : GoodConvo (msgs ++
          [MessageParam.mk Role.assistant (MessageContent.blocks r.content),
           MessageParam.mk Role.user (MessageContent.toolResults results)]) :=
        GoodConvo.extend msgs r.content results hgood hmatch
      obtain ⟨hmem, hchain⟩ := ih _ hgood'
      constructor
      · intro s hs
        rcases List.mem_cons.mp hs with hs | hs
        · exact ⟨⟨[], by simp [hs]⟩, hs ▸ hgood⟩
        · obtain ⟨⟨t, ht⟩, hg⟩ := hmem s hs
          refine ⟨⟨[MessageParam.mk Role.assistant (MessageContent.blocks r.content),
            MessageParam.mk Role.user (MessageContent.toolResults results)] ++ t, ?_⟩, hg⟩
          simp [ht]
      · rw [List.chain'_cons']
        refine ⟨?_, hchain⟩
        intro b hb
        rw [loopStates_head] at hb
        cases hb
        exact ⟨_, rfl⟩
    · have hstop : IndexTs.loopStates backend respond (n + 1) msgs = [msgs] := by
        apply loopStates_stop
        cases hr : respond msgs with
        | error e => exact Or.inl ⟨e, rfl⟩
        | ok r =>
          by_cases hs : r.stop_reason = "tool_use"
          · cases hrun : IndexTs.runTools backend (toolUsesOf r.content) with
            | error e => exact Or.inr (Or.inr ⟨r, e, rfl, hs, hrun⟩)
            | ok results => exact absurd ⟨r, results, hr, hs, hrun⟩ hcont
          · exact Or.inr (Or.inl ⟨r, rfl, hs⟩)
      rw [hstop]
      refine ⟨?_, List.chain'_singleton _⟩
      intro s hs
      simp only [List.mem_singleton] at hs
      exact ⟨⟨[], by simp [hs]⟩, hs ▸ hgood⟩

/- ------------------------------------------------------------------ -/
/- Claim theorems                                                      -/
/- ------------------------------------------------------------------ -/

/-- C1 (counterexample): a backend query failure is NOT caught at the Query
Executor/Controller boundary. With a backend whose query rejects with
"network error" and a model response requesting the get_match tool,
`callClaudeWithTools` itself ends with the thrown error propagating out
(the `threw` outcome, by construction distinct from every `done` result) —
the failure is never substituted by a structured error payload. -/
theorem C1_counterexample :
    IndexTs.callClaudeWithTools (fun _ _ => Except.error "network error")
      (fun _ => Except.ok (ModelResponse.mk "tool_use"
        [ContentBlock.toolUse "toolu_01" "get_match" [("id", Json.str "X")]])) 2
      "get match X" = LoopResult.threw "network error" :=
  rfl

/-- C1 (amended): when a backend query underlying some tool invocation of a
batch rejects, the failure is not converted into a Tool Invocation Result:
the batch run rejects with that error and `callClaudeWithTools` terminates
by throwing it (to be caught only by the Request Handler); a single failing
`handleToolCall` already fails its whole batch. -/
theorem C1_amended_backend_failure_propagates (backend : Backend)
    (respond : Respond) (fuel : Nat) (msgs : List MessageParam)
    (r : ModelResponse) (e : String)
    (hresp : respond msgs = Except.ok r) (hstop : r.stop_reason = "tool_use")
    (hrun : IndexTs.runTools backend (toolUsesOf r.content) = Except.error e) :
    IndexTs.loopAux backend respond (fuel + 1) msgs = LoopResult.threw e ∧
    ∀ (i n : String) (inp : List (String × Json))
      (rest : List (String × String × List (String × Json))),
      IndexTs.handleToolCall backend n inp = Except.error e →
      IndexTs.runTools backend ((i, n, inp) :: rest) = Except.error e := by
  refine ⟨loopAux_threw_step backend respond fuel msgs r e hresp hstop hrun, ?_⟩
  intro i n inp rest hh
  simp only [IndexTs.runTools]
  rw [hh]

/-- C1 (witness): the amended theorem at a concrete rejecting backend. -/
theorem C1_witness :
    IndexTs.loopAux (fun _ _ => Except.error "network error")
      (fun _ => Except.ok (ModelResponse.mk "tool_use"
        [ContentBlock.toolUse "toolu_01" "get_match" [("id", Json.str "X")]])) 3
      (IndexTs.initMsgs "get match X") = LoopResult.threw "network error" :=
  (C1_amended_backend_failure_propagates
    (fun _ _ => Except.error "network error")
    (fun _ => Except.ok (ModelResponse.mk "tool_use"
      [ContentBlock.toolUse "toolu_01" "get_match" [("id", Json.str "X")]]))
    2 (IndexTs.initMsgs "get match X")
    (ModelResponse.mk "tool_use"
      [ContentBlock.toolUse "toolu_01" "get_match" [("id", Json.str "X")]])
    "network error" rfl rfl rfl).1

/-- C2: for every tool_use response, the single appended user turn carries
exactly one tool_result per tool_use block, keyed by the same invocation
ids in the same listed order (hence a bijection when the request ids are
distinct, with no omissions and no duplicates). -/
theorem C2_tool_results_bijection (backend : Backend) (respond : Respond)
    (fuel : Nat) (msgs : List MessageParam) (r : ModelResponse)
    (results : List ToolResultBlockParam)
    (hresp : respond msgs = Except.ok r) (hstop : r.stop_reason = "tool_use")
    (hrun : IndexTs.runTools backend (toolUsesOf r.content) = Except.ok results) :
    results.map (fun x => x.tool_use_id) =
      (toolUsesOf r.content).map (fun x => x.1) ∧
    results.length = (toolUsesOf r.content).length ∧
    (((toolUsesOf r.content).map (fun x => x.1)).Nodup →
      (results.map (fun x => x.tool_use_id)).Nodup) ∧
    IndexTs.loopAux backend respond (fuel + 1) msgs =
      IndexTs.loopAux backend respond fuel
        (msgs ++
          [MessageParam.mk Role.assistant (MessageContent.blocks r.content),
           MessageParam.mk Role.user (MessageContent.toolResults results)]) := by
  have hids := runTools_ok_ids backend (toolUsesOf r.content) results hrun
  refine ⟨hids, ?_, ?_,
    loopAux_tool_use_step backend respond fuel msgs r results hresp hstop hrun⟩
  · have hlen := congrArg List.length hids
    simpa using hlen
  · intro hnd
    rw [hids]
    exact hnd

/-- C2 (witness): a concrete two-request batch produces results keyed
"tu1", "tu2" in order. -/
theorem C2_witness :
    [ToolResultBlockParam.mk "tu1" "null", ToolResultBlockParam.mk "tu2" "null"].map
        (fun x => x.tool_use_id) =
      (toolUsesOf [ContentBlock.toolUse "tu1" "list_matches" [],
        ContentBlock.toolUse "tu2" "get_match" [("id", Json.str "m1")]]).map
        (fun x => x.1) :=
  (C2_tool_results_bijection (fun _ _ => Except.ok Json.null)
    (fun _ => Except.ok (ModelResponse.mk "tool_use"
      [ContentBlock.toolUse "tu1" "list_matches" [],
       ContentBlock.toolUse "tu2" "get_match" [("id", Json.str "m1")]]))
    0 (IndexTs.initMsgs "q")
    (ModelResponse.mk "tool_use"
      [ContentBlock.toolUse "tu1" "list_matches" [],
       ContentBlock.toolUse "tu2" "get_match" [("id", Json.str "m1")]])
    [ToolResultBlockParam.mk "tu1" "null", ToolResultBlockParam.mk "tu2" "null"]
    rfl rfl rfl).1

/-- C3: the loop reaches DONE exactly when a response's stop_reason is not
"tool_use" — on any such response it returns that response's extracted text
at once, whatever conversation precedes it; conversely, if every response
requests tool use (and the backend always resolves), the loop never
finishes on any amount of fuel: there is no iteration cap. -/
theorem C3_termination :
    (∀ (backend : Backend) (respond : Respond) (fuel : Nat)
       (msgs : List MessageParam) (r : ModelResponse),
       respond msgs = Except.ok r → r.stop_reason ≠ "tool_use" →
       IndexTs.loopAux backend respond (fuel + 1) msgs =
         LoopResult.done (IndexTs.extractText r)) ∧
    (∀ (backend : Backend) (respond : Respond),
       (∀ msgs, ∃ r, respond msgs = Except.ok r ∧ r.stop_reason = "tool_use") →
       (∀ q v, ∃ j, backend q v = Except.ok j) →
       ∀ (fuel : Nat) (msgs : List MessageParam),
         IndexTs.loopAux backend respond fuel msgs = LoopResult.running) :=
  ⟨fun backend respond fuel msgs r hresp hstop =>
    loopAux_done_step backend respond fuel msgs r hresp hstop,
   fun backend respond htu htotal => loopAux_always_running backend respond htu htotal⟩

/-- C3 (witness): a non-tool-use response finishes the loop at once, and a
model that always requests (an empty batch of) tools keeps it running. -/
theorem C3_witness :
    IndexTs.loopAux (fun _ _ => Except.ok Json.null)
      (fun _ => Except.ok (ModelResponse.mk "end_turn" [ContentBlock.text "done"]))
      1 (IndexTs.initMsgs "q") = LoopResult.done "done" ∧
    IndexTs.loopAux (fun _ _ => Except.ok Json.null)
      (fun _ => Except.ok (ModelResponse.mk "tool_use" []))
      3 (IndexTs.initMsgs "q") = LoopResult.running := by
  constructor
  · have h := C3_termination.1 (fun _ _ => Except.ok Json.null)
      (fun _ => Except.ok (ModelResponse.mk "end_turn" [ContentBlock.text "done"]))
      0 (IndexTs.initMsgs "q")
      (ModelResponse.mk "end_turn" [ContentBlock.text "done"]) rfl (by decide)
    simpa using h
  · exact C3_termination.2 (fun _ _ => Except.ok Json.null)
      (fun _ => Except.ok (ModelResponse.mk "tool_use" []))
      (fun _ => ⟨ModelResponse.mk "tool_use" [], rfl, rfl⟩)
      (fun _ _ => ⟨Json.null, rfl⟩) 3 (IndexTs.initMsgs "q")

/-- C4: for any tool name outside the supported set, `handleToolCall`
resolves normally with the payload {error: "Unknown tool: <name>"} whatever
the arguments; the batch wraps exactly that payload, serialized, into the
tool result, and the loop continues normally with it. -/
theorem C4_unknown_tool (backend : Backend) (toolName : String)
    (toolInput : List (String × Json))
    (hname : toolName ∉ IndexTs.supportedToolNames) :
    IndexTs.handleToolCall backend toolName toolInput =
      Except.ok (Json.obj [("error", Json.str ("Unknown tool: " ++ toolName))]) ∧
    (∀ (i : String) (rest : List (String × String × List (String × Json)))
        (results : List ToolResultBlockParam),
      IndexTs.runTools backend rest = Except.ok results →
      IndexTs.runTools backend ((i, toolName, toolInput) :: rest) =
        Except.ok (ToolResultBlockParam.mk i
          (stringify (Json.obj [("error", Json.str ("Unknown tool: " ++ toolName))]))
          :: results)) ∧
    (∀ (respond : Respond) (fuel : Nat) (msgs : List MessageParam)
        (r : ModelResponse) (i : String),
      respond msgs = Except.ok r → r.stop_reason = "tool_use" →
      toolUsesOf r.content = [(i, toolName, toolInput)] →
      IndexTs.loopAux backend respond (fuel + 1) msgs =
        IndexTs.loopAux backend respond fuel
          (msgs ++
            [MessageParam.mk Role.assistant (MessageContent.blocks r.content),
             MessageParam.mk Role.user (MessageContent.toolResults
               [ToolResultBlockParam.mk i (stringify (Json.obj
                 [("error", Json.str ("Unknown tool: " ++ toolName))]))])])) := by
  have h1 : ¬toolName = "list_matches" ∧ ¬toolName = "get_match" := by
    simpa [IndexTs.supportedToolNames] using hname
  have hcall : IndexTs.handleToolCall backend toolName toolInput =
      Except.ok (Json.obj [("error", Json.str ("Unknown tool: " ++ toolName))]) := by
    unfold IndexTs.handleToolCall
    rw [if_neg h1.1, if_neg h1.2]
  have hbatch : ∀ (i : String) (rest : List (String × String × List (String × Json)))
      (results : List ToolResultBlockParam),
      IndexTs.runTools backend rest = Except.ok results →
      IndexTs.runTools backend ((i, toolName, toolInput) :: rest) =
        Except.ok (ToolResultBlockParam.mk i
          (stringify (Json.obj [("error", Json.str ("Unknown tool: " ++ toolName))]))
          :: results) := by
    intro i rest results hrest
    simp only [IndexTs.runTools]
    rw [hcall, hrest]
  refine ⟨hcall, hbatch, ?_⟩
  intro respond fuel msgs r i hresp hstop htu
  apply loopAux_tool_use_step backend respond fuel msgs r _ hresp hstop
  rw [htu]
  exact hbatch i [] [] rfl

/-- C4 (witness): Scenario D — the operation name "delete_everything" yields
exactly the fixed error payload. -/
theorem C4_witness :
    IndexTs.handleToolCall (fun _ _ => Except.ok Json.null) "delete_everything"
      [] = Except.ok (Json.obj [("error", Json.str "Unknown tool: delete_everything")]) := by
  have h := (C4_unknown_tool (fun _ _ => Except.ok Json.null) "delete_everything"
    [] (by decide)).1
  simpa using h

/-- C5: the Request Handler answers whitespace-only (or absent) input with
the fixed prompt message and zero Controller invocations; any input that is
non-empty after trimming leads to exactly one Controller invocation. -/
theorem C5_request_validation (controller : String → Except String String)
    (field : Option String) :
    (jsTrim (field.getD "") = "" →
      IndexTs.calmMeDown controller field =
        (IndexTs.Res.mk 200 "Please enter a message.", 0)) ∧
    (jsTrim (field.getD "") ≠ "" →
      (IndexTs.calmMeDown controller field).2 = 1) := by
  constructor
  · intro h
    simp only [IndexTs.calmMeDown]
    rw [if_pos h]
  · intro h
    simp only [IndexTs.calmMeDown]
    rw [if_neg h]
    cases controller (field.getD "") <;> rfl

/-- C5 (witness): Scenario A — whitespace input returns the prompt without
invoking the Controller; "hello" invokes it exactly once. -/
theorem C5_witness :
    IndexTs.calmMeDown (fun _ => Except.ok "ans") (some "   ") =
      (IndexTs.Res.mk 200 "Please enter a message.", 0) ∧
    (IndexTs.calmMeDown (fun _ => Except.ok "ans") (some "hello")).2 = 1 :=
  ⟨(C5_request_validation (fun _ => Except.ok "ans") (some "   ")).1 rfl,
   (C5_request_validation (fun _ => Except.ok "ans") (some "hello")).2 (by decide)⟩

/-- A well-formed conversation starts with a user turn, ends with a user
turn, and strictly alternates roles. -/
theorem goodConvo_alternates (s : List MessageParam) (h : GoodConvo s) :
    List.Chain' (fun a b => a.role ≠ b.role) s ∧
    s.head?.map (fun m => m.role) = some Role.user ∧
    s.getLast?.map (fun m => m.role) = some Role.user := by
  induction h with
  | seed u => exact ⟨List.chain'_singleton _, rfl, rfl⟩
  | extend s bs rs hgood hmatch ih =>
    obtain ⟨hchain, hhead, hlast⟩ := ih
    obtain ⟨x, hx⟩ : ∃ x, s.getLast? = some x := by
      cases hl : s.getLast? with
      | none => rw [hl] at hlast; cases hlast
      | some x => exact ⟨x, rfl⟩
    have hxrole : x.role = Role.user := by
      rw [hx] at hlast
      simpa using hlast
    obtain ⟨a, t, rfl⟩ : ∃ a t, s = a :: t := by
      cases s with
      | nil => cases hhead
      | cons a t => exact ⟨a, t, rfl⟩
    have harole : a.role = Role.user := by simpa using hhead
    refine ⟨?_, ?_, ?_⟩
    · rw [List.chain'_append]
      refine ⟨hchain, ?_, ?_⟩
      · simp [List.chain'_cons]
      · intro p hp q hq
        simp only [Option.mem_def] at hp hq
        rw [hx] at hp
        cases hp
        simp only [List.head?_cons, Option.some.injEq] at hq
        rw [← hq, hxrole]
        simp
    · simpa using harole
    · rw [show (a :: t) ++
          [MessageParam.mk Role.assistant (MessageContent.blocks bs),
           MessageParam.mk Role.user (MessageContent.toolResults rs)] =
          ((a :: t) ++ [MessageParam.mk Role.assistant (MessageContent.blocks bs)]) ++
          [MessageParam.mk Role.user (MessageContent.toolResults rs)] by simp]
      rw [List.getLast?_concat]
      rfl

/-- Writing a list of chunks with `res.write` appends them, in order, to the
chunks already written. -/
theorem foldl_writeChunk_chunks (l : List String) :
    ∀ res : Part000.SRes,
      (l.foldl Part000.writeChunk res).chunks = res.chunks ++ l := by
  induction l with
  | nil => intro res; simp
  | cons d t ih =>
    intro res
    rw [List.foldl_cons, ih]
    simp [Part000.writeChunk]

/-- The fragments written during a streamed turn are exactly the emitted
deltas, in order. -/
theorem writesOf_turnEvents (s : Part000.ModelStream) :
    Part000.writesOf (Part000.turnEvents s) = s.deltas := by
  show Part000.writesOf
    (s.deltas.map Part000.StreamEvent.write ++ [Part000.StreamEvent.completed]) =
    s.deltas
  induction s.deltas with
  | nil => rfl
  | cons d t ih =>
    simp only [List.map_cons, List.cons_append]
    rw [show Part000.writesOf (Part000.StreamEvent.write d ::
        (t.map Part000.StreamEvent.write ++ [Part000.StreamEvent.completed])) =
      d :: Part000.writesOf
        (t.map Part000.StreamEvent.write ++ [Part000.StreamEvent.completed]) from rfl]
    rw [ih]

/-- The completion signal occurs only at the last position of a turn's event
trace: no event, in particular no write, follows it. -/
theorem turnEvents_completed_last (s : Part000.ModelStream) (j : Nat)
    (h : (Part000.turnEvents s).get? j = some Part000.StreamEvent.completed) :
    j = s.deltas.length := by
  unfold Part000.turnEvents at h
  rcases lt_trichotomy j s.deltas.length with hlt | heq | hgt
  · rw [List.get?_append (by simpa using hlt), List.get?_map] at h
    cases hh : s.deltas.get? j with
    | none => rw [hh] at h; cases h
    | some d =>
      rw [hh] at h
      simp at h
  · exact heq
  · exfalso
    have hnone : (s.deltas.map Part000.StreamEvent.write ++
        [Part000.StreamEvent.completed]).get? j = none := by
      apply List.get?_eq_none.mpr
      simp
      omega
    rw [hnone] at h
    cases h

/-- C6: in streaming mode, the relay writes exactly the turn's deltas, in
emission order, appended to the response; under the SDK stream contract the
concatenation of everything written for the turn equals the turn's final
textual answer; and the completion signal is the last event of the turn's
trace, so no fragment is written after it. -/
theorem C6_streaming_faithful (s : Part000.ModelStream) (res : Part000.SRes)
    (hc : Part000.streamContract s) :
    (Part000.relayTurn res s).chunks = res.chunks ++ s.deltas ∧
    Part000.writesOf (Part000.turnEvents s) = s.deltas ∧
    String.join (Part000.relayTurn Part000.initRes s).chunks =
      Part000.finalTurnText s.final ∧
    (∀ j, (Part000.turnEvents s).get? j = some Part000.StreamEvent.completed →
      j = s.deltas.length ∧ j + 1 = (Part000.turnEvents s).length) := by
  refine ⟨foldl_writeChunk_chunks s.deltas res, writesOf_turnEvents s, ?_, ?_⟩
  · rw [show (Part000.relayTurn Part000.initRes s).chunks =
        Part000.initRes.chunks ++ s.deltas from
      foldl_writeChunk_chunks s.deltas Part000.initRes]
    unfold Part000.streamContract at hc
    simpa [Part000.initRes, Part000.finalTurnText] using hc
  · intro j hj
    have hlast := turnEvents_completed_last s j hj
    refine ⟨hlast, ?_⟩
    simp [Part000.turnEvents, hlast]

/-- C6 (witness): a concrete two-fragment stream whose deltas concatenate to
the final text "Hello". -/
theorem C6_witness :
    (Part000.relayTurn Part000.initRes
      (Part000.ModelStream.mk ["Hel", "lo"]
        (ModelResponse.mk "end_turn" [ContentBlock.text "Hello"]))).chunks =
      Part000.initRes.chunks ++ ["Hel", "lo"] ∧
    String.join (Part000.relayTurn Part000.initRes
      (Part000.ModelStream.mk ["Hel", "lo"]
        (ModelResponse.mk "end_turn" [ContentBlock.text "Hello"]))).chunks =
      Part000.finalTurnText (ModelResponse.mk "end_turn" [ContentBlock.text "Hello"]) := by
  have h := C6_streaming_faithful
    (Part000.ModelStream.mk ["Hel", "lo"]
      (ModelResponse.mk "end_turn" [ContentBlock.text "Hello"]))
    Part000.initRes rfl
  exact ⟨h.1, h.2.2.1⟩

/-- C7: the conversation is mutated only by appending (consecutive loop
states extend each other), and every state reached by the loop from the
seeded conversation is a well-formed conversation: it extends the seed,
strictly alternates roles starting from the user turn, and every batch of
tool results sits in a single user turn immediately after the assistant
turn, as received, whose tool_use blocks requested them (the `GoodConvo`
grammar). -/
theorem C7_conversation_invariant (backend : Backend) (respond : Respond)
    (fuel : Nat) (u : String) :
    (∀ s ∈ IndexTs.loopStates backend respond fuel (IndexTs.initMsgs u),
      (∃ t, s = IndexTs.initMsgs u ++ t) ∧ GoodConvo s ∧
      List.Chain' (fun a b => a.role ≠ b.role) s ∧
      s.head?.map (fun m => m.role) = some Role.user) ∧
    List.Chain' (fun a b => ∃ t, b = a ++ t)
      (IndexTs.loopStates backend respond fuel (IndexTs.initMsgs u)) := by
  obtain ⟨hmem, hchain⟩ :=
    loopStates_invariant backend respond fuel (IndexTs.initMsgs u) (GoodConvo.seed u)
  refine ⟨?_, hchain⟩
  intro s hs
  obtain ⟨hext, hg⟩ := hmem s hs
  obtain ⟨halt, hhead, _⟩ := goodConvo_alternates s hg
  exact ⟨hext, hg, halt, hhead⟩

/-- C7 (witness): after one concrete tool round, the recorded conversation
user/assistant/user is well-formed and alternating. -/
theorem C7_witness :
    GoodConvo [MessageParam.mk Role.user (MessageContent.text "q"),
      MessageParam.mk Role.assistant (MessageContent.blocks
        [ContentBlock.toolUse "tu1" "list_matches" []]),
      MessageParam.mk Role.user (MessageContent.toolResults
        [ToolResultBlockParam.mk "tu1" "null"])] ∧
    List.Chain' (fun a b => a.role ≠ b.role)
      [MessageParam.mk Role.user (MessageContent.text "q"),
       MessageParam.mk Role.assistant (MessageContent.blocks
         [ContentBlock.toolUse "tu1" "list_matches" []]),
       MessageParam.mk Role.user (MessageContent.toolResults
         [ToolResultBlockParam.mk "tu1" "null"])] := by
  have hmem : [MessageParam.mk Role.user (MessageContent.text "q"),
      MessageParam.mk Role.assistant (MessageContent.blocks
        [ContentBlock.toolUse "tu1" "list_matches" []]),
      MessageParam.mk Role.user (MessageContent.toolResults
        [ToolResultBlockParam.mk "tu1" "null"])] ∈
      IndexTs.loopStates (fun _ _ => Except.ok Json.null)
        (fun _ => Except.ok (ModelResponse.mk "tool_use"
          [ContentBlock.toolUse "tu1" "list_matches" []]))
        1 (IndexTs.initMsgs "q") :=
    List.Mem.tail _ (List.Mem.head _)
  have h := (C7_conversation_invariant (fun _ _ => Except.ok Json.null)
    (fun _ => Except.ok (ModelResponse.mk "tool_use"
      [ContentBlock.toolUse "tu1" "list_matches" []]))
    1 "q").1 _ hmem
  exact ⟨h.2.1, h.2.2.1⟩

/-- C8: when the Controller rejects, the streaming Request Handler inspects
`headersSent`: if output has already begun it only terminates the stream
(status and chunks untouched); if nothing was sent yet it responds with
status 500 and a plain-text error description. -/
theorem C8_error_handling
    (controller : Part000.SRes → Except (String × Part000.SRes) Part000.SRes)
    (field : Option String) (e : String) (r : Part000.SRes)
    (hne : jsTrim (field.getD "") ≠ "")
    (herr : controller (Part000.setHeaders Part000.initRes Part000.streamingHeaders) =
      Except.error (e, r)) :
    (r.headersSent = true →
      (Part000.calmMeDown controller field).1 = Part000.endStream r ∧
      (Part000.endStream r).status = r.status ∧
      (Part000.endStream r).chunks = r.chunks) ∧
    (r.headersSent = false →
      (Part000.calmMeDown controller field).1 =
        Part000.sendText (Part000.setHeaders (Part000.setStatus r 500)
          [("Content-Type", "text/plain")]) ("Error: " ++ e) ∧
      ((Part000.calmMeDown controller field).1).status = 500) := by
  have hrun : Part000.calmMeDown controller field =
      (if r.headersSent then (Part000.endStream r, 1)
       else (Part000.sendText (Part000.setHeaders (Part000.setStatus r 500)
         [("Content-Type", "text/plain")]) ("Error: " ++ e), 1)) := by
    unfold Part000.calmMeDown
    rw [if_neg hne, herr]
  constructor
  · intro hh
    rw [hrun, if_pos hh]
    exact ⟨rfl, rfl, rfl⟩
  · intro hh
    rw [hrun, if_neg (by rw [hh]; exact Bool.false_ne_true)]
    exact ⟨rfl, rfl⟩

/-- C8 (witness): a Controller that fails after writing a chunk only gets
the stream ended; one that fails before writing gets a 500 response. -/
theorem C8_witness :
    (Part000.calmMeDown
      (fun sres => Except.error ("boom", Part000.writeChunk sres "partial"))
      (some "hi")).1 =
      Part000.endStream (Part000.writeChunk
        (Part000.setHeaders Part000.initRes Part000.streamingHeaders) "partial") ∧
    ((Part000.calmMeDown
      (fun _ => Except.error ("boom",
        Part000.setHeaders Part000.initRes Part000.streamingHeaders))
      (some "hi")).1).status = 500 := by
  constructor
  · exact ((C8_error_handling
      (fun sres => Except.error ("boom", Part000.writeChunk sres "partial"))
      (some "hi") "boom"
      (Part000.writeChunk
        (Part000.setHeaders Part000.initRes Part000.streamingHeaders) "partial")
      (by decide) rfl).1 rfl).1
  · exact ((C8_error_handling
      (fun _ => Except.error ("boom",
        Part000.setHeaders Part000.initRes Part000.streamingHeaders))
      (some "hi") "boom"
      (Part000.setHeaders Part000.initRes Part000.streamingHeaders)
      (by decide) rfl).2 rfl).2

/-- C9: each supported tool of the part_001 variant executes a fixed GraphQL
template determined solely by the tool name; its variables are exactly the
single documented argument field looked up in the input (passed through
verbatim, even when absent); and all other input keys have no effect, so two
invocations of the same tool agreeing on that one field perform identical
backend requests. -/
theorem C9_fixed_templates (toolName : String)
    (hname : toolName ∈ Part001.supportedToolNames) :
    (∀ i iB, (Part001.toolRequest toolName i).map Prod.fst =
      (Part001.toolRequest toolName iB).map Prod.fst) ∧
    (∀ i, (Part001.toolRequest toolName i).map Prod.snd =
      some (match Part001.toolArgKey toolName with
        | none => []
        | some k => [(k, List.lookup k i)])) ∧
    (∀ i iB (backend : Backend),
      (Part001.toolArgKey toolName).map (fun k => List.lookup k i) =
        (Part001.toolArgKey toolName).map (fun k => List.lookup k iB) →
      Part001.handleToolCall backend toolName i =
        Part001.handleToolCall backend toolName iB) := by
  simp only [Part001.supportedToolNames, List.mem_cons, List.not_mem_nil,
    or_false] at hname
  rcases hname with rfl | rfl | rfl | rfl | rfl | rfl | rfl
  · exact ⟨fun i iB => rfl, fun i => rfl, fun i iB backend _ => rfl⟩
  · exact ⟨fun i iB => rfl, fun i => rfl, fun i iB backend _ => rfl⟩
  · refine ⟨fun i iB => rfl, fun i => rfl, ?_⟩
    intro i iB backend hagree
    have h : List.lookup "id" i = List.lookup "id" iB := Option.some.inj hagree
    show queryDataConnect backend Part001.getMatchQuery
        [("id", List.lookup "id" i)] =
      queryDataConnect backend Part001.getMatchQuery
        [("id", List.lookup "id" iB)]
    rw [h]
  · exact ⟨fun i iB => rfl, fun i => rfl, fun i iB backend _ => rfl⟩
  · refine ⟨fun i iB => rfl, fun i => rfl, ?_⟩
    intro i iB backend hagree
    have h : List.lookup "id" i = List.lookup "id" iB := Option.some.inj hagree
    show queryDataConnect backend Part001.getPlayerQuery
        [("id", List.lookup "id" i)] =
      queryDataConnect backend Part001.getPlayerQuery
        [("id", List.lookup "id" iB)]
    rw [h]
  · refine ⟨fun i iB => rfl, fun i => rfl, ?_⟩
    intro i iB backend hagree
    have h : List.lookup "eventType" i = List.lookup "eventType" iB :=
      Option.some.inj hagree
    show queryDataConnect backend Part001.getEventsByTypeQuery
        [("eventType", List.lookup "eventType" i)] =
      queryDataConnect backend Part001.getEventsByTypeQuery
        [("eventType", List.lookup "eventType" iB)]
    rw [h]
  · refine ⟨fun i iB => rfl, fun i => rfl, ?_⟩
    intro i iB backend hagree
    have h : List.lookup "playerId" i = List.lookup "playerId" iB :=
      Option.some.inj hagree
    show queryDataConnect backend Part001.getPlayerEventsQuery
        [("playerId", List.lookup "playerId" i)] =
      queryDataConnect backend Part001.getPlayerEventsQuery
        [("playerId", List.lookup "playerId" iB)]
    rw [h]

/-- C9 (witness): two get_match inputs agreeing on "id" but differing in
every other key perform the same backend request. -/
theorem C9_witness :
    Part001.handleToolCall (fun _ _ => Except.ok Json.null) "get_match"
      [("id", Json.str "X"), ("junk", Json.bool true)] =
    Part001.handleToolCall (fun _ _ => Except.ok Json.null) "get_match"
      [("extra", Json.num 3), ("id", Json.str "X")] :=
  (C9_fixed_templates "get_match" (by decide)).2.2
    [("id", Json.str "X"), ("junk", Json.bool true)]
    [("extra", Json.num 3), ("id", Json.str "X")]
    (fun _ _ => Except.ok Json.null) rfl

/-- Reformulation of `extractText` via the first text block: the fixed fallback when
there is none or when its text is empty (the JS `||`), otherwise its text. -/
theorem extractText_eq_firstText (r : ModelResponse) :
    IndexTs.extractText r =
      match IndexTs.firstText r with
      | none => "No response generated."
      | some t => if t = "" then "No response generated." else t := by
  unfold IndexTs.extractText IndexTs.firstText
  rcases h : r.content.find? (fun b =>
    match b with
    | ContentBlock.text _ => true
    | _ => false) with _ | b
  · rw [h]
  · rw [h]
    cases b <;> rfl

/-- C10 (counterexample): a final response whose first text block holds the
empty string has a text block, yet the Controller returns the fixed
"No response generated." rather than that block's (empty) text. -/
theorem C10_counterexample :
    IndexTs.loopAux (fun _ _ => Except.ok Json.null)
      (fun _ => Except.ok (ModelResponse.mk "end_turn" [ContentBlock.text ""]))
      1 (IndexTs.initMsgs "q") = LoopResult.done "No response generated." ∧
    IndexTs.firstText (ModelResponse.mk "end_turn" [ContentBlock.text ""]) =
      some "" ∧
    "No response generated." ≠ "" :=
  ⟨rfl, rfl, by decide⟩

/-- C10 (amended): in buffered mode the final answer is the first text
block's text when that text is nonempty (later text blocks dropped); when
the final response has no text block, or its first text block's text is the
empty string, the fixed "No response generated." is returned instead. -/
theorem C10_amended_buffered_fallback (backend : Backend) (respond : Respond)
    (fuel : Nat) (msgs : List MessageParam) (r : ModelResponse)
    (hresp : respond msgs = Except.ok r) (hstop : r.stop_reason ≠ "tool_use") :
    IndexTs.loopAux backend respond (fuel + 1) msgs =
      LoopResult.done (IndexTs.extractText r) ∧
    (IndexTs.firstText r = none →
      IndexTs.extractText r = "No response generated.") ∧
    (IndexTs.firstText r = some "" →
      IndexTs.extractText r = "No response generated.") ∧
    (∀ t, IndexTs.firstText r = some t → t ≠ "" →
      IndexTs.extractText r = t) := by
  refine ⟨loopAux_done_step backend respond fuel msgs r hresp hstop, ?_, ?_, ?_⟩
  · intro h
    rw [extractText_eq_firstText, h]
  · intro h
    rw [extractText_eq_firstText, h]
    rfl
  · intro t ht hne
    rw [extractText_eq_firstText, ht]
    exact if_neg hne

/-- C10 (witness): with two text blocks, the first one's (nonempty) text is
returned and the later one dropped. -/
theorem C10_witness :
    IndexTs.extractText (ModelResponse.mk "end_turn"
      [ContentBlock.text "Hello", ContentBlock.text "later"]) = "Hello" :=
  (C10_amended_buffered_fallback (fun _ _ => Except.ok Json.null)
    (fun _ => Except.ok (ModelResponse.mk "end_turn"
      [ContentBlock.text "Hello", ContentBlock.text "later"]))
    0 (IndexTs.initMsgs "q")
    (ModelResponse.mk "end_turn"
      [ContentBlock.text "Hello", ContentBlock.text "later"])
    rfl (by decide)).2.2.2 "Hello" rfl (by decide)
